import Mathlib

/-!
Verification of the wav2mp3 batch transcoder (src/wav2mp3.c) against its
natural-language specification.

The embedding models:
- `encode_wav2mp3` (lines 115-278): the per-job worker body — lame_init_params
  check, source/destination opens, the fread/encode/fwrite streaming loop,
  the final flush iteration, lame_close and the return value.  The codec and
  the file system are oracles: `enc i` is the int returned by the i-th
  `lame_encode_buffer` call, `flush` the int returned by `lame_encode_flush`,
  `totalFrames` the number of whole stereo frames in the source file (so the
  i-th fread returns `min WAV_SIZE remaining` items), and `writeOk i` whether
  the i-th fwrite actually put its bytes on disk (its result is never read by
  the code).
- `threadFunction` (lines 53-111): the worker wrapper — on encode failure it
  calls pthread_exit before the decrement block; on success it runs the
  zero-guarded decrement.
- the dispatcher/worker counter protocol of `main` (lines 384-434) as a
  labelled transition system `counterStep` / `runOps`: the dispatcher admits
  (increments) only from a state where the observed counter is below the
  core limit, workers only run the guarded decrement.
- `main`'s extension filter (line 353): `strcmp(strrchr(name, '.'), ".wav")`,
  with strrchr's NULL result on a dot-free name modelled as its own outcome
  (the C code passes NULL to strcmp — undefined behaviour, not a logged skip).
-/

namespace Wav2mp3

/-- WAV_SIZE from wav2mp3.c line 37: frames per fread call. -/
def WAV_SIZE : Nat := 8192

/-- MP3_SIZE from wav2mp3.c line 38: capacity of the encoded output buffer. -/
def MP3_SIZE : Nat := 8192

/-- stdlib EXIT_SUCCESS. -/
def EXIT_SUCCESS : Int := 0

/-- stdlib EXIT_FAILURE. -/
def EXIT_FAILURE : Int := 1

/-- Conversion of a C int to size_t (64-bit unsigned), as performed by the
assignment `byteswrote = lame_encode_buffer(...)` at line 228: a negative int
wraps around modulo 2^64. -/
def size_t_of_int (r : Int) : Nat := (r % (2 : Int) ^ 64).toNat

/-- The error check `byteswrote < 0` at line 241, performed on the unsigned
size_t value: an unsigned quantity compared against 0. -/
def byteswroteNegative (byteswrote : Nat) : Bool := decide (byteswrote < 0)

/-- Observable result of the do/while streaming loop (lines 199-257). -/
structure LoopResult where
  failedInLoop : Bool
  written : Nat
  encodeCalls : Nat
  freadCalls : Nat
deriving DecidableEq

/-- The streaming loop of `encode_wav2mp3` (lines 199-257).  Each iteration
freads `min WAV_SIZE remaining` frames; a nonzero read leads to a
`lame_encode_buffer` call (oracle `enc idx`), a zero read to the single
`lame_encode_flush` call (oracle `flush`), in both cases followed by the
(dead, because unsigned) `byteswrote < 0` check and an fwrite of `byteswrote`
bytes whose result is ignored; the loop exits after the zero-read iteration. -/
def streamLoop (enc : Nat → Int) (flush : Int) (writeOk : Nat → Bool)
    (idx remaining written : Nat) : LoopResult :=
  if h : min WAV_SIZE remaining = 0 then
    if byteswroteNegative (size_t_of_int flush) then
      ⟨true, written, idx, idx + 1⟩
    else
      ⟨false, written + (if writeOk idx then size_t_of_int flush else 0), idx, idx + 1⟩
  else
    if byteswroteNegative (size_t_of_int (enc idx)) then
      ⟨true, written, idx + 1, idx + 1⟩
    else
      streamLoop enc flush writeOk (idx + 1) (remaining - min WAV_SIZE remaining)
        (written + (if writeOk idx then size_t_of_int (enc idx) else 0))
termination_by remaining
decreasing_by
  have h2 := Nat.min_le_right WAV_SIZE remaining
  omega

/-- Observable outcome of one `encode_wav2mp3` call. -/
structure EncodeOutcome where
  retval : Int
  written : Nat
  lameClosed : Bool
  encodeCalls : Nat
  freadCalls : Nat
  initErrorLogged : Bool
deriving DecidableEq

/-- `encode_wav2mp3` (lines 115-278).  `initParamsRes` is the result of
`lame_init_params` (line 155: a negative result is only logged, execution
continues), `wavOpenOk` / `mp3OpenOk` whether the two fopen calls succeed
(lines 167, 179: failure returns EXIT_FAILURE at once, without lame_close),
then the streaming loop runs; on its normal exit lame_close is called and
EXIT_SUCCESS returned (lines 264-277); a failure return from inside the loop
(line 251) skips lame_close. -/
def encode_wav2mp3 (initParamsRes : Int) (wavOpenOk mp3OpenOk : Bool)
    (totalFrames : Nat) (enc : Nat → Int) (flush : Int) (writeOk : Nat → Bool) :
    EncodeOutcome :=
  let logged := decide (initParamsRes < 0)
  if !wavOpenOk then
    ⟨EXIT_FAILURE, 0, false, 0, 0, logged⟩
  else if !mp3OpenOk then
    ⟨EXIT_FAILURE, 0, false, 0, 0, logged⟩
  else
    let r := streamLoop enc flush writeOk 0 totalFrames 0
    if r.failedInLoop then
      ⟨EXIT_FAILURE, r.written, false, r.encodeCalls, r.freadCalls, logged⟩
    else
      ⟨EXIT_SUCCESS, r.written, true, r.encodeCalls, r.freadCalls, logged⟩

/-- The guarded decrement of `threadFunction` (lines 78-90): the counter is
decremented only when strictly positive; a decrement on a non-positive counter
leaves it unchanged and logs the "numthreads !>0" consistency error (second
component `true`). -/
def decrementNumthreads (n : Int) : Int × Bool :=
  if 0 < n then (n - 1, false) else (n, true)

/-- `threadFunction` (lines 53-111) as its effect on the shared counter:
if `encode_wav2mp3` did not return EXIT_SUCCESS the thread exits with
EXIT_FAILURE immediately (line 73), before the decrement block; otherwise it
performs the guarded decrement and exits with EXIT_SUCCESS.  Returns the new
counter value and the thread exit status. -/
def threadFunction (encodeRetval : Int) (numthreads : Int) : Int × Int :=
  if encodeRetval ≠ EXIT_SUCCESS then (numthreads, EXIT_FAILURE)
  else ((decrementNumthreads numthreads).1, EXIT_SUCCESS)

/-- Events observable on the shared counter: the dispatcher launching a worker
after its admission poll, or a worker finishing (running its decrement). -/
inductive CounterOp
  | spawn
  | finish
deriving DecidableEq

/-- One event's effect on the counter, for core limit `L`.  The dispatcher's
admission poll (lines 385-393) spins while `numthreads >= numcores`, so the
increment at line 406 happens only from a state whose counter is below `L`
(between the poll and the increment the counter can only decrease, since
workers only decrement); a worker's exit runs the guarded decrement. -/
def counterStep (L : Int) (c : Int) : CounterOp → Int
  | .spawn => if c < L then c + 1 else c
  | .finish => (decrementNumthreads c).1

/-- Counter value after a sequence of events, starting from `numthreads = 0`
(line 304). -/
def runOps (L : Int) (ops : List CounterOp) : Int :=
  ops.foldl (counterStep L) 0

/-- `numcores` as computed by `main` (line 329, POSIX branch): the raw
sysconf(_SC_NPROCESSORS_ONLN) result is used directly; no floor of 1 is
applied anywhere (sysconf returns -1 on failure). -/
def computeNumcores (sysconfResult : Int) : Int := sysconfResult

/-- `strrchr(name, '.')` (line 353): the suffix of the name starting at the
last '.', or `none` (NULL) when the name contains no '.'. -/
def strrchrDot : List Char → Option (List Char)
  | [] => none
  | c :: rest =>
    match strrchrDot rest with
    | some s => some s
    | none => if c = '.' then some (c :: rest) else none

/-- What `main`'s directory loop does with one entry name (lines 350-421). -/
inductive EntryAction
  | job
  | skipLogged
  | crashNullDeref
deriving DecidableEq

/-- The extension filter at line 353: `strcmp(strrchr(entry->d_name, '.'), ".wav")`.
If the name has a final dot-segment equal to ".wav" a job is built and a
worker launched; a different dot-segment is skipped with the "is not a wave
file" log line; a name with no '.' makes strrchr return NULL, which is passed
straight to strcmp — undefined behaviour (a null dereference), modelled as its
own outcome. -/
def classifyEntry (name : List Char) : EntryAction :=
  match strrchrDot name with
  | none => .crashNullDeref
  | some s => if s = ".wav".toList then .job else .skipLogged

/-- The entries for which `main` builds a Job (and only those get a worker and
a destination path): the ones the line-353 filter accepts. -/
def jobsOf (entries : List (List Char)) : List (List Char) :=
  entries.filter (fun n => decide (classifyEntry n = .job))

/-- Number of `lame_encode_buffer` calls the loop performs for a source of
`totalFrames` frames: one per full-or-partial WAV_SIZE chunk. -/
def numEncodeCalls (totalFrames : Nat) : Nat :=
  (totalFrames + WAV_SIZE - 1) / WAV_SIZE

/-! ## Helper lemmas -/

/-- The line-241 check `byteswrote < 0` compares an unsigned size_t against 0,
so it never fires. -/
theorem byteswroteNegative_false (n : Nat) : byteswroteNegative n = false := by
  simp [byteswroteNegative]

/-- A C int in `[0, 2^64)` survives the size_t conversion unchanged. -/
theorem size_t_of_int_eq_toNat (r : Int) (h1 : 0 ≤ r) (h2 : r < 2 ^ 64) :
    size_t_of_int r = r.toNat := by
  unfold size_t_of_int
  rw [Int.emod_eq_of_lt h1 h2]

/-- The streaming loop never takes the line-251 failure return: the dead
unsigned comparison makes every iteration fall through to the fwrite. -/
theorem streamLoop_failedInLoop_false (enc : Nat → Int) (flush : Int) (w : Nat → Bool)
    (idx remaining written : Nat) :
    (streamLoop enc flush w idx remaining written).failedInLoop = false := by
  rw [streamLoop]
  split
  · simp [byteswroteNegative_false]
  · simp only [byteswroteNegative_false, Bool.false_eq_true, if_false]
    exact streamLoop_failedInLoop_false enc flush w (idx + 1)
      (remaining - min WAV_SIZE remaining)
      (written + if w idx then size_t_of_int (enc idx) else 0)
termination_by remaining
decreasing_by
  have h2 := Nat.min_le_right WAV_SIZE remaining
  omega

/-- With all fwrites succeeding and all codec results in the documented range,
the loop completes having written exactly the per-call byte counts. -/
theorem streamLoop_sum (enc : Nat → Int) (flush : Int)
    (hEnc : ∀ i, 0 ≤ enc i ∧ enc i ≤ (MP3_SIZE : Int))
    (hFl : 0 ≤ flush ∧ flush ≤ (MP3_SIZE : Int))
    (idx remaining written : Nat) :
    streamLoop enc flush (fun _ => true) idx remaining written =
      ⟨false,
       written + ((Finset.range (numEncodeCalls remaining)).sum fun i => (enc (idx + i)).toNat)
         + flush.toNat,
       idx + numEncodeCalls remaining,
       idx + numEncodeCalls remaining + 1⟩ := by
  have hm : (MP3_SIZE : Int) < 2 ^ 64 := by norm_num [MP3_SIZE]
  rw [streamLoop]
  split
  next h =>
    have hrem : remaining = 0 := by
      simp [WAV_SIZE] at h
      omega
    subst hrem
    have hk : numEncodeCalls 0 = 0 := by norm_num [numEncodeCalls, WAV_SIZE]
    simp [byteswroteNegative_false, hk,
      size_t_of_int_eq_toNat flush hFl.1 (lt_of_le_of_lt hFl.2 hm)]
  next h =>
    have hstep : numEncodeCalls remaining
        = numEncodeCalls (remaining - min WAV_SIZE remaining) + 1 := by
      simp only [numEncodeCalls, WAV_SIZE] at h ⊢
      omega
    have he : size_t_of_int (enc idx) = (enc idx).toNat :=
      size_t_of_int_eq_toNat _ (hEnc idx).1 (lt_of_le_of_lt (hEnc idx).2 hm)
    have ih := streamLoop_sum enc flush hEnc hFl (idx + 1)
      (remaining - min WAV_SIZE remaining)
      (written + size_t_of_int (enc idx))
    have hsum : ((Finset.range (numEncodeCalls (remaining - min WAV_SIZE remaining) + 1)).sum
          fun i => (enc (idx + i)).toNat)
        = (enc idx).toNat
          + ((Finset.range (numEncodeCalls (remaining - min WAV_SIZE remaining))).sum
              fun i => (enc (idx + 1 + i)).toNat) := by
      rw [Finset.sum_range_succ']
      simp only [Nat.add_zero]
      rw [Nat.add_comm]
      congr 1
      refine Finset.sum_congr rfl fun i _ => ?_
      have hpt : idx + (i + 1) = idx + 1 + i := by omega
      rw [hpt]
    simp only [byteswroteNegative_false, Bool.false_eq_true, if_false, if_true]
    rw [ih, hstep]
    simp only [LoopResult.mk.injEq]
    refine ⟨by trivial, ?_, by omega, by omega⟩
    rw [hsum, he]
    omega
termination_by remaining
decreasing_by
  have h2 := Nat.min_le_right WAV_SIZE remaining
  omega

/-- Starting below the bound, every event sequence keeps the counter within
`[0, L]`: the dispatcher's guarded increment cannot push it past `L`, and the
guarded decrement cannot push it below 0. -/
theorem foldl_counterStep_bound (L : Int) (ops : List CounterOp) :
    ∀ c : Int, 0 ≤ c → c ≤ L →
      0 ≤ ops.foldl (counterStep L) c ∧ ops.foldl (counterStep L) c ≤ L := by
  induction ops with
  | nil =>
    intro c h1 h2
    exact ⟨h1, h2⟩
  | cons op rest ih =>
    intro c h1 h2
    have hstep : 0 ≤ counterStep L c op ∧ counterStep L c op ≤ L := by
      cases op <;> simp only [counterStep, decrementNumthreads] <;> split <;>
        exact ⟨by omega, by omega⟩
    simpa only [List.foldl_cons] using ih _ hstep.1 hstep.2

/-- With a non-positive core limit the admission guard never passes, so the
counter is stuck at 0 and no job is ever admitted. -/
theorem foldl_counterStep_stuck (L : Int) (hL : L ≤ 0) (ops : List CounterOp) :
    ops.foldl (counterStep L) 0 = 0 := by
  induction ops with
  | nil => rfl
  | cons op rest ih =>
    have h0 : counterStep L 0 op = 0 := by
      cases op
      · simp only [counterStep]
        rw [if_neg (by omega)]
      · simp [counterStep, decrementNumthreads]
    rw [List.foldl_cons, h0]
    exact ih

/-! ## Claims -/

/-- Claim C1 (code_bug): the claim says every worker, Succeeded or Failed,
decrements the Shared Counter exactly once before terminating.  The code
violates this: `threadFunction` calls pthread_exit(EXIT_FAILURE) at line 73
when `encode_wav2mp3` fails, before the decrement block at lines 78-90.  At
the failing input — a job whose source file cannot be opened — the worker's
encode returns EXIT_FAILURE and the counter, incremented to 1 at launch, is
left at 1, so `main`'s drain loop condition `numthreads > 0` stays true
forever and increments can never equal decrements. -/
theorem c1_failed_worker_skips_decrement :
    (encode_wav2mp3 0 false true 0 (fun _ => 0) 0 (fun _ => true)).retval = EXIT_FAILURE
    ∧ threadFunction EXIT_FAILURE 1 = (1, EXIT_FAILURE)
    ∧ 0 < (threadFunction EXIT_FAILURE 1).1 := by
  refine ⟨?_, ?_, ?_⟩ <;> decide

/-- Claim C2 (code_bug): the claim says a negative encoder result makes the
job Fail with nothing further written.  The code declares `byteswrote` as
size_t (line 124), so lame_encode_buffer's -1 wraps to 2^64-1, the line-241
check `byteswrote < 0` is identically false, and at the failing input (the
first encode call returns -1) `encode_wav2mp3` does not return failure: it
calls fwrite with the wrapped huge count and finishes with EXIT_SUCCESS. -/
theorem c2_negative_encode_result_undetected :
    size_t_of_int (-1) = 2 ^ 64 - 1
    ∧ byteswroteNegative (size_t_of_int (-1)) = false
    ∧ (encode_wav2mp3 0 true true 1 (fun _ => -1) 0 (fun _ => true)).retval = EXIT_SUCCESS
    ∧ (encode_wav2mp3 0 true true 1 (fun _ => -1) 0 (fun _ => true)).written = 2 ^ 64 - 1 := by
  have h1 : size_t_of_int (-1) = 2 ^ 64 - 1 := by decide
  have h0 : size_t_of_int 0 = 0 := by decide
  have hloop : streamLoop (fun _ => (-1 : Int)) 0 (fun _ => true) 0 1 0
      = ⟨false, 2 ^ 64 - 1, 1, 2⟩ := by
    rw [streamLoop]
    norm_num [byteswroteNegative_false, WAV_SIZE, h1]
    rw [streamLoop]
    norm_num [byteswroteNegative_false, WAV_SIZE, h0]
  refine ⟨h1, byteswroteNegative_false _, ?_, ?_⟩ <;>
    simp [encode_wav2mp3, hloop, EXIT_SUCCESS]

/-- Claim C3 (confirmed): over every event sequence of the dispatcher/worker
counter protocol with core limit L ≥ 1, no read of the Shared Counter ever
observes a value above L (or below 0): the dispatcher increments only after
its admission poll observed a value below L, and workers only run the guarded
decrement. -/
theorem c3_counter_never_exceeds_limit (L : Int) (hL : 1 ≤ L) (ops : List CounterOp) :
    0 ≤ runOps L ops ∧ runOps L ops ≤ L := by
  unfold runOps
  exact foldl_counterStep_bound L ops 0 le_rfl (by omega)

/-- Witness for C3 at L = 2 and a concrete event sequence. -/
theorem c3_witness :
    0 ≤ runOps 2 [CounterOp.spawn, CounterOp.spawn, CounterOp.finish]
    ∧ runOps 2 [CounterOp.spawn, CounterOp.spawn, CounterOp.finish] ≤ 2 :=
  c3_counter_never_exceeds_limit 2 (by decide) [CounterOp.spawn, CounterOp.spawn, CounterOp.finish]

/-- Claim C4 (corrected), counterexample: the claim says an
encoder-initialization failure moves the job directly to Failed without
entering the Streaming loop.  With lame_init_params returning -1 (logged),
both files opening, and an empty source, `encode_wav2mp3` still performs an
fread (enters Streaming) and returns EXIT_SUCCESS. -/
theorem c4_counterexample :
    (encode_wav2mp3 (-1) true true 0 (fun _ => 0) 1 (fun _ => true)).retval = EXIT_SUCCESS
    ∧ (encode_wav2mp3 (-1) true true 0 (fun _ => 0) 1 (fun _ => true)).freadCalls = 1
    ∧ (encode_wav2mp3 (-1) true true 0 (fun _ => 0) 1 (fun _ => true)).initErrorLogged = true := by
  have h1 : size_t_of_int 1 = 1 := by decide
  have hloop : streamLoop (fun _ => (0 : Int)) 1 (fun _ => true) 0 0 0
      = ⟨false, 1, 0, 1⟩ := by
    rw [streamLoop]
    norm_num [byteswroteNegative_false, WAV_SIZE, h1]
  refine ⟨?_, ?_, ?_⟩ <;> simp [encode_wav2mp3, hloop, EXIT_SUCCESS]

/-- Claim C4 (corrected), amended: a source-open failure or a
destination-open failure moves the job directly to Failed (EXIT_FAILURE)
without entering the Streaming loop — no fread and no encode call happen;
an encoder-initialization failure, by contrast, is only logged and the job
continues into Streaming. -/
theorem c4_amended (initRes : Int) (frames : Nat) (enc : Nat → Int) (flush : Int)
    (w : Nat → Bool) (mOk : Bool) :
    ((encode_wav2mp3 initRes false mOk frames enc flush w).retval = EXIT_FAILURE
      ∧ (encode_wav2mp3 initRes false mOk frames enc flush w).freadCalls = 0
      ∧ (encode_wav2mp3 initRes false mOk frames enc flush w).encodeCalls = 0)
    ∧ ((encode_wav2mp3 initRes true false frames enc flush w).retval = EXIT_FAILURE
      ∧ (encode_wav2mp3 initRes true false frames enc flush w).freadCalls = 0
      ∧ (encode_wav2mp3 initRes true false frames enc flush w).encodeCalls = 0) := by
  simp [encode_wav2mp3]

/-- Claim C5 (corrected), counterexample: the claim says lame_close is
invoked on every exit path of a worker that opened a session (lame_init runs
unconditionally at line 140 before any file is opened).  On the
source-open-failure path the function returns EXIT_FAILURE at line 177
without ever reaching the lame_close at line 264. -/
theorem c5_counterexample :
    (encode_wav2mp3 0 false true 0 (fun _ => 0) 0 (fun _ => true)).lameClosed = false
    ∧ (encode_wav2mp3 0 false true 0 (fun _ => 0) 0 (fun _ => true)).retval = EXIT_FAILURE := by
  refine ⟨?_, ?_⟩ <;> decide

/-- Claim C5 (corrected), amended: lame_close is invoked exactly on the
success exit path of `encode_wav2mp3`; every failure return (source-open
failure, destination-open failure, the in-loop error return) exits without
closing the encoder session. -/
theorem c5_amended (initRes : Int) (wOk mOk : Bool) (frames : Nat)
    (enc : Nat → Int) (flush : Int) (w : Nat → Bool) :
    (encode_wav2mp3 initRes wOk mOk frames enc flush w).lameClosed
      = decide ((encode_wav2mp3 initRes wOk mOk frames enc flush w).retval = EXIT_SUCCESS) := by
  unfold encode_wav2mp3
  cases wOk <;> cases mOk <;> simp [EXIT_SUCCESS, EXIT_FAILURE]
  by_cases h : (streamLoop enc flush w 0 frames 0).failedInLoop
  all_goals simp [h, EXIT_SUCCESS, EXIT_FAILURE]

/-- Claim C6 (confirmed): the guarded decrement never drives the counter
negative; applied to a zero counter it leaves it at zero and logs the
internal-consistency warning, and applied to a positive counter it decrements
without warning. -/
theorem c6_decrement_zero_guard (n : Int) (h : 0 ≤ n) :
    0 ≤ (decrementNumthreads n).1
    ∧ (n = 0 → decrementNumthreads n = (0, true))
    ∧ (0 < n → decrementNumthreads n = (n - 1, false)) := by
  unfold decrementNumthreads
  refine ⟨?_, ?_, ?_⟩
  · split <;> omega
  · intro h0
    subst h0
    simp
  · intro hp
    rw [if_pos hp]

/-- Witness for C6 at n = 0. -/
theorem c6_witness :
    0 ≤ (decrementNumthreads 0).1
    ∧ ((0 : Int) = 0 → decrementNumthreads 0 = (0, true))
    ∧ ((0 : Int) < 0 → decrementNumthreads 0 = (0 - 1, false)) :=
  c6_decrement_zero_guard 0 (by decide)

/-- Claim C7 (corrected), counterexample: the claim says the concurrency
limit is always at least 1, defaulting to 1 when the processor query fails.
The code (line 329) stores the raw sysconf result: on failure that is -1,
and no floor is applied. -/
theorem c7_counterexample :
    computeNumcores (-1) = -1 ∧ ¬ (1 ≤ computeNumcores (-1)) := by decide

/-- Claim C7 (corrected), amended: `numcores` is the raw platform query
result with no ≥ 1 floor; when the query fails (or reports no cores), the
admission condition `numthreads >= numcores` is always true, so the
dispatcher's poll never completes and no job is ever admitted — the counter
stays at 0 over every event sequence. -/
theorem c7_amended (s : Int) (hs : s ≤ 0) (ops : List CounterOp) :
    computeNumcores s = s ∧ runOps (computeNumcores s) ops = 0 :=
  ⟨rfl, foldl_counterStep_stuck s hs ops⟩

/-- Witness for C7's amended statement at the sysconf failure value -1. -/
theorem c7_amended_witness :
    computeNumcores (-1) = -1 ∧ runOps (computeNumcores (-1)) [CounterOp.spawn] = 0 :=
  c7_amended (-1) (by decide) [CounterOp.spawn]

/-- Claim C8 (confirmed): for a valid stereo source of any frame count, when
every codec call succeeds (results within the documented [0, MP3_SIZE] range,
flush producing its final nonempty frame) and the fwrites succeed, the
destination file's byte length equals the sum of the counts returned by the
encode calls plus the count returned by the single flush, is nonzero, and
the job returns success. -/
theorem c8_byte_accounting (initRes : Int) (frames : Nat) (enc : Nat → Int) (flush : Int)
    (hEnc : ∀ i, 0 ≤ enc i ∧ enc i ≤ (MP3_SIZE : Int))
    (hFl : 0 ≤ flush ∧ flush ≤ (MP3_SIZE : Int)) (hPos : 0 < flush) :
    (encode_wav2mp3 initRes true true frames enc flush (fun _ => true)).written
      = ((Finset.range (numEncodeCalls frames)).sum fun i => (enc i).toNat) + flush.toNat
    ∧ 0 < (encode_wav2mp3 initRes true true frames enc flush (fun _ => true)).written
    ∧ (encode_wav2mp3 initRes true true frames enc flush (fun _ => true)).retval
        = EXIT_SUCCESS := by
  have h := streamLoop_sum enc flush hEnc hFl 0 frames 0
  have hzero : ((Finset.range (numEncodeCalls frames)).sum fun i => (enc (0 + i)).toNat)
      = (Finset.range (numEncodeCalls frames)).sum fun i => (enc i).toNat :=
    Finset.sum_congr rfl fun i _ => by rw [Nat.zero_add]
  have hft : 0 < flush.toNat := by omega
  refine ⟨?_, ?_, ?_⟩ <;> (simp [encode_wav2mp3, h, hzero, EXIT_SUCCESS]; try omega)

/-- Witness for C8 at an empty source with a one-byte flush frame. -/
theorem c8_witness :
    (encode_wav2mp3 0 true true 0 (fun _ => (0 : Int)) 1 (fun _ => true)).written
      = ((Finset.range (numEncodeCalls 0)).sum fun i => ((fun _ : Nat => (0 : Int)) i).toNat)
        + (1 : Int).toNat
    ∧ 0 < (encode_wav2mp3 0 true true 0 (fun _ => (0 : Int)) 1 (fun _ => true)).written
    ∧ (encode_wav2mp3 0 true true 0 (fun _ => (0 : Int)) 1 (fun _ => true)).retval
        = EXIT_SUCCESS :=
  c8_byte_accounting 0 0 (fun _ => 0) 1
    (fun _ => ⟨le_refl 0, by norm_num [MP3_SIZE]⟩)
    ⟨by norm_num, by norm_num [MP3_SIZE]⟩ (by norm_num)

/-- Claim C9 (corrected), counterexample: the claim says every entry whose
name does not end in ".wav" — including names with no dot at all — is
skipped with a log line.  For the dot-free name "README", strrchr returns
NULL and line 353 passes it straight to strcmp: a null dereference, not a
logged skip. -/
theorem c9_counterexample :
    classifyEntry ("README".toList) = EntryAction.crashNullDeref
    ∧ EntryAction.crashNullDeref ≠ EntryAction.skipLogged := by decide

/-- Claim C9 (corrected), amended: every entry whose name contains a dot and
whose final dot-segment differs from ".wav" (case-sensitively) is skipped
with a log line and gets no Job (hence no worker and no destination file);
an entry with no dot in its name instead hits undefined behaviour
(strcmp on strrchr's NULL). -/
theorem c9_amended (name s : List Char) (entries : List (List Char))
    (hs : strrchrDot name = some s) (hw : s ≠ ".wav".toList) :
    classifyEntry name = EntryAction.skipLogged ∧ name ∉ jobsOf entries := by
  have hc : classifyEntry name = EntryAction.skipLogged := by
    unfold classifyEntry
    rw [hs]
    show (if s = ".wav".toList then EntryAction.job else EntryAction.skipLogged)
        = EntryAction.skipLogged
    rw [if_neg hw]
  refine ⟨hc, ?_⟩
  intro hmem
  have h2 := (List.mem_filter.mp hmem).2
  rw [hc] at h2
  simp at h2

/-- Witness for C9's amended statement at the entry "notes.txt". -/
theorem c9_amended_witness :
    classifyEntry ("notes.txt".toList) = EntryAction.skipLogged
    ∧ "notes.txt".toList ∉ jobsOf ["a.wav".toList, "notes.txt".toList] :=
  c9_amended ("notes.txt".toList) (".txt".toList)
    (["a.wav".toList, "notes.txt".toList]) (by decide) (by decide)

/-- Claim C10 (confirmed): `encode_wav2mp3` never inspects fwrite's result:
its return value is the same under any two destination-write oracles, and
when both files open and every read and every codec call succeeds the job
still reports EXIT_SUCCESS even if no output byte reached the disk. -/
theorem c10_write_result_ignored (initRes : Int) (wOk mOk : Bool) (frames : Nat)
    (enc : Nat → Int) (flush : Int) (w1 w2 : Nat → Bool) :
    (encode_wav2mp3 initRes wOk mOk frames enc flush w1).retval
      = (encode_wav2mp3 initRes wOk mOk frames enc flush w2).retval
    ∧ (wOk = true → mOk = true → (∀ i, 0 ≤ enc i) → 0 ≤ flush →
        (encode_wav2mp3 initRes wOk mOk frames enc flush w1).retval = EXIT_SUCCESS) := by
  constructor
  · cases wOk <;> cases mOk <;>
      simp [encode_wav2mp3, streamLoop_failedInLoop_false]
  · intro hw hm _ _
    subst hw
    subst hm
    simp [encode_wav2mp3, streamLoop_failedInLoop_false]

/-- Witness for C10: an all-failing write oracle against an all-succeeding
one, on an empty source with a successful flush. -/
theorem c10_witness :
    (encode_wav2mp3 0 true true 0 (fun _ => (0 : Int)) 1 (fun _ => true)).retval
      = (encode_wav2mp3 0 true true 0 (fun _ => (0 : Int)) 1 (fun _ => false)).retval
    ∧ (encode_wav2mp3 0 true true 0 (fun _ => (0 : Int)) 1 (fun _ => true)).retval
        = EXIT_SUCCESS :=
  ⟨(c10_write_result_ignored 0 true true 0 (fun _ => 0) 1 (fun _ => true) (fun _ => false)).1,
   (c10_write_result_ignored 0 true true 0 (fun _ => 0) 1 (fun _ => true) (fun _ => false)).2
     rfl rfl (fun _ => le_refl 0) (by norm_num)⟩

end Wav2mp3
